import Mathlib

/-!
Shallow embedding of the `asyncwiki` search library (query normalization,
result assembly, cache write-back and the search orchestration), together
with theorems settling the specification claims against it.

Python sources embedded here:
  * `asyncwiki/types.py`   — `WikiQuery`, `WikiSimpleResult`, `WikiResult`
  * `asyncwiki/config.py`  — `query_clean_list`, `wiki_page_url`
  * `asyncwiki/main.py`    — `WikiSearcher.search`
  * `asyncwiki/searchers/db_searcher.py` — `WikiDBSearcher.__search`,
    `__save_result`, `__simple_results_converter`
  * `asyncwiki/searchers/web_searcher/main.py` — `WikiWebSearcher.search`
  * `asyncwiki/searchers/web_searcher/api_searcher.py` —
    `WikiApiWebSearcher.__api_search_page`

The modules `asyncwiki/params.py`, `asyncwiki/exc.py` and the ORM layer
(`asyncwiki/database/orm.py`, `asyncwiki/database/tables.py`) are not in
the sources; the definitions standing in for them are modelled from the
specification and say so in their doc comments.

Python `str` operations are re-implemented over `List Char` (structural
recursion) so that every definition evaluates inside the kernel; they
follow CPython semantics for `split`, `replace`, `lower`, `find`, `join`
and slicing.
-/

set_option maxHeartbeats 1000000

deriving instance DecidableEq for Except

namespace AsyncWiki

/-! ### Python string primitives -/

/-- `str.split(sep)` worker over character lists: left-to-right scan for
non-overlapping occurrences of `sep`, keeping empty chunks.  `fuel` only
forces structural recursion; `fuel = length + 1` always suffices. -/
def pySplitAux (sep : List Char) : Nat → List Char → List Char → List (List Char)
  | 0, acc, rest => [acc.reverse ++ rest]
  | fuel+1, acc, rest =>
    if sep ≠ [] ∧ sep.isPrefixOf rest then
      acc.reverse :: pySplitAux sep fuel [] (rest.drop sep.length)
    else
      match rest with
      | [] => [acc.reverse]
      | c :: cs => pySplitAux sep fuel (c :: acc) cs

/-- Python `s.split(sep)` for a non-empty separator. -/
def pySplit (s sep : String) : List String :=
  (pySplitAux sep.toList (s.toList.length + 1) [] s.toList).map String.mk

/-- Python `str.lower` restricted to the alphabets the code uses: ASCII
`A–Z` and Cyrillic `А–Я`/`Ё` (the stop-word list is English/Russian). -/
def pyCharLower (c : Char) : Char :=
  if 65 ≤ c.toNat ∧ c.toNat ≤ 90 then Char.ofNat (c.toNat + 32)
  else if 0x410 ≤ c.toNat ∧ c.toNat ≤ 0x42F then Char.ofNat (c.toNat + 32)
  else if c.toNat = 0x401 then Char.ofNat 0x451
  else c

/-- Python `s.lower()`. -/
def pyLower (s : String) : String :=
  String.mk (s.toList.map pyCharLower)

/-- Python `sep.join(l)`. -/
def pyJoin (sep : String) (l : List String) : String :=
  String.mk (List.intercalate sep.toList (l.map String.toList))

/-- Python `s.replace(old, new)` for non-empty `old`
(equals `new.join(s.split(old))`). -/
def pyReplace (s old new : String) : String :=
  pyJoin new (pySplit s old)

/-- Python `s.find(sub)` worker: index of the first occurrence. -/
def pyFindAux (sub : List Char) : List Char → Nat → Option Nat
  | [], i => if sub = [] then some i else none
  | l@(_ :: cs), i => if sub.isPrefixOf l then some i else pyFindAux sub cs (i+1)

/-- Python `s.find(sub)`, as `none` instead of `-1` on absence. -/
def pyFind (s sub : String) : Option Nat :=
  pyFindAux sub.toList s.toList 0

/-- Python `s[n:]` (code-point slicing). -/
def pyDropStr (s : String) (n : Nat) : String :=
  String.mk (s.toList.drop n)

/-! ### Search parameters (`asyncwiki/params.py`, absent from the sources) -/

/-- Modelled from the spec: `asyncwiki/params.py` is missing from the
sources.  §3 SearchConfiguration: `mode : {fast, default}`. -/
inductive WPSearchModes where
  | fast
  | default
deriving DecidableEq, Repr

/-- Modelled from the spec: §3 `priority : {title, content}`. -/
inductive WPSearchPriority where
  | title
  | content
deriving DecidableEq, Repr

/-- Modelled from the spec: §3 `queryTreatment : {normalize, passthrough}`;
the code calls the passthrough member `WPQueryTreatments.without`. -/
inductive WPQueryTreatments where
  | with_treatment
  | without
deriving DecidableEq, Repr

/-- Modelled from the spec: §3 `cachePolicy : {useCache, skipCache}`,
called `WPDBSearch.yes / no` by the code. -/
inductive WPDBSearch where
  | yes
  | no
deriving DecidableEq, Repr

/-- Modelled from the spec: §3 `cachePolicyForLinks`, called
`WPDBSearchByURL.yes / no` by the code. -/
inductive WPDBSearchByURL where
  | yes
  | no
deriving DecidableEq, Repr

/-- Modelled from the spec: §3 SearchConfiguration (`WikiSearchParams` in
the code); a record of the recognized options.  `number_of_results` is the
field name `api_searcher.py` reads. -/
structure WikiSearchParams where
  mode : WPSearchModes
  priority : WPSearchPriority
  number_of_results : Nat
  query_treatment : WPQueryTreatments
  db_search : WPDBSearch
  db_search_by_url : WPDBSearchByURL
deriving DecidableEq, Repr

/-- Python exceptions that `WikiQuery` construction can raise. -/
inductive PyExc where
  | indexError
  | typeError
deriving DecidableEq, Repr

/-- Python truthiness of `WikiQuery.__is_link`, which is `True`, `False`
or `None` (the implicit fall-through return of `__link_checker`). -/
def truthy : Option Bool → Bool
  | some b => b
  | none => false

/-! ### Configuration (`asyncwiki/config.py`) -/

/-- `config.py`: `query_clean_list` — words removed by query cleaning. -/
def query_clean_list : List String :=
  ["what", "where", "who", "why", "when", "that", "this", "how",
   "что", "такое", "где", "кто", "зачем", "куда", "когда", "такие",
   "такой", "такого", "как", "какой", "такая"]

/-- `config.py`: `wiki_page_url.format(lang, key)`. -/
def wiki_page_url (lang key : String) : String :=
  "https://" ++ lang ++ ".wikipedia.org/wiki/" ++ key

/-- Modelled from the spec: the external linguistic tokenizer
(`pyspellchecker`'s `SpellChecker.split_words`), specified only as
"split the raw string into word tokens".  Concrete inputs below use this
whitespace word-splitting; general theorems quantify over the tokenizer. -/
def split_words (s : String) : List String :=
  (pySplit s " ").filter (fun w => w ≠ "")

/-! ### Query normalization (`asyncwiki/types.py`, `WikiQuery`) -/

/-- `types.py` `WikiQuery.__link_checker` (lines 77–101), with the
in-place mutation of the shared `search_params` object made explicit in
the return value.  Returns `(is_link, lang, params)`; `is_link` is
`some true`, `some false` (the `else` branch) or `none` (the implicit
`None` fall-through when the split starts with `https:` but the host is
not recognized).  `Except.error .indexError` models the uncaught
`IndexError` of `split[1]` (no `//` in the query) and of
`split_query[1]` (a one-label host). -/
def link_checker (raw_query lang : String) (p : WikiSearchParams) :
    Except PyExc (Option Bool × String × WikiSearchParams) :=
  match pySplit raw_query "//" with
  | [] => .ok (some false, lang, p)
  | s0 :: rest =>
    if s0 = "https:" then
      match rest with
      | [] => .error .indexError
      | s1 :: _ =>
        let split_query := pySplit ((pySplit s1 "/").headD "") "."
        let split_len := split_query.length
        match (if split_len = 2 then split_query.get? 0 else split_query.get? 1) with
        | none => .error .indexError
        | some label =>
          if label = "wikipedia" then
            let lang' := if split_len = 3 then split_query.headD lang else lang
            let p' := if p.db_search_by_url = WPDBSearchByURL.no then
                        { p with db_search := WPDBSearch.no }
                      else p
            .ok (some true, lang', p')
          else
            .ok (none, lang, p)
    else
      .ok (some false, lang, p)

/-- `types.py` `WikiQuery.__clean` (lines 103–135), parametrized by the
external tokenizer `tok` (`spell.split_words`).  The comprehension
`[word if word.lower() not in query_clean_list else ... for word in spell_split]`
maps stop words to the `Ellipsis` object (not a string), modelled as
`none`; `"_".join` over a list containing a non-string raises
`TypeError`, modelled as `Except.error .typeError`. -/
def clean (tok : String → List String) (raw_query : String)
    (is_link : Option Bool) (p : WikiSearchParams) : Except PyExc String :=
  if truthy is_link then
    .ok raw_query
  else if p.query_treatment = WPQueryTreatments.without then
    .ok (pyReplace raw_query " " "_")
  else
    let spell_split := tok raw_query
    let words_list : List (Option String) :=
      spell_split.map (fun word =>
        if pyLower word ∈ query_clean_list then none else some word)
    if words_list.all (fun w => w.isSome) then
      let result := pyJoin "_" (words_list.filterMap id)
      if result = "" then
        .ok (pyReplace raw_query " " "_")
      else
        .ok result
    else
      .error .typeError

/-- `types.py` `WikiQuery`: raw query, (possibly link-overridden)
language, the shared search-parameters object as it stands after
construction, the derived link flag and the cleaned query. -/
structure WikiQuery where
  raw_query : String
  lang : String
  search_params : WikiSearchParams
  is_link : Option Bool
  query : String
deriving DecidableEq, Repr

/-- `types.py` `WikiQuery.__init__`: run `__link_checker` (which may
mutate the shared params object and `self.__lang`), then `__clean`.
`search_params` in the result is the state of the caller's shared
parameters object after construction. -/
def mkWikiQuery (tok : String → List String) (query lang : String)
    (p : WikiSearchParams) : Except PyExc WikiQuery :=
  match link_checker query lang p with
  | .error e => .error e
  | .ok (il, lang', p') =>
    match clean tok query il p' with
    | .error e => .error e
    | .ok q =>
      .ok { raw_query := query, lang := lang', search_params := p',
            is_link := il, query := q }

/-! ### Result assembly (`asyncwiki/types.py`, `WikiSimpleResult` / `WikiResult`) -/

/-- `types.py` `WikiSimpleResult`: title, language, cleaned raw link and
derived canonical URL. -/
structure WikiSimpleResult where
  title : String
  lang : String
  raw_link : String
  link : String
deriving DecidableEq, Repr

/-- `types.py` `WikiSimpleResult.__init__` and the `raw_link` setter:
strip everything up to and including the first `/wiki/` from the raw
link, then build the canonical URL with `wiki_page_url`. -/
def mkWikiSimpleResult (title raw_link lang : String) : WikiSimpleResult :=
  let raw' := match pyFind raw_link "/wiki/" with
    | some i => pyDropStr raw_link (i + 6)
    | none => raw_link
  { title := title, lang := lang, raw_link := raw',
    link := wiki_page_url lang raw' }

/-- `types.py` `WikiResult.simple_results` setter, lines 241–243: the
Python `for result in simple_results: ... simple_results.remove(result)`
loop.  The list iterator keeps an index `i`; `remove` deletes the element
being looked at (entries are distinct objects), after which the iterator
moves to index `i+1` of the shortened list, skipping one element.
`fuel` only forces structural recursion: every step advances the
iterator, so any `fuel ≥ l.length - i` gives the loop's value
(`simple_results_filter_le_fuel`). -/
def simple_results_filter (title : String) :
    Nat → List WikiSimpleResult → Nat → List WikiSimpleResult
  | 0, l, _ => l
  | fuel+1, l, i =>
    if h : i < l.length then
      if pyLower (l.get ⟨i, h⟩).title = pyLower title then
        simple_results_filter title fuel (l.eraseIdx i) (i+1)
      else
        simple_results_filter title fuel l (i+1)
    else l

/-- Reference form of `simple_results_filter` starting at index 0: a pure
recursion in which removing a match skips the following element.  The
bridge lemma `simple_results_filter_eq_skipFilter` connects the two. -/
def skipFilter (title : String) : List WikiSimpleResult → List WikiSimpleResult
  | [] => []
  | [x] => if pyLower x.title = pyLower title then [] else [x]
  | x :: y :: rest =>
    if pyLower x.title = pyLower title then
      y :: skipFilter title rest
    else
      x :: skipFilter title (y :: rest)

/-- `types.py` `WikiResult.simple_results` setter (lines 238–245):
filter self-matches in place when the value is a list, then store
`simple_results[:5] if simple_results else None` — a falsy value (Python
`None` or the empty list) is stored as `None`. -/
def setSimpleResults (title : String)
    (simple_results : Option (List WikiSimpleResult)) :
    Option (List WikiSimpleResult) :=
  match simple_results with
  | none => none
  | some l =>
    let filtered := simple_results_filter title l.length l 0
    if filtered.isEmpty then none else some (filtered.take 5)

/-- `types.py` `WikiResult`: key, title, language, summary, derived URL
and the optional related-results list. -/
structure WikiResult where
  key : String
  title : String
  lang : String
  url : String
  summary : String
  simple_results : Option (List WikiSimpleResult)
deriving DecidableEq, Repr

/-- `types.py` `WikiResult.__init__`: stores the fields, derives the URL
and runs the `simple_results` setter. -/
def mkWikiResult (key title lang summary : String)
    (simple_results : Option (List WikiSimpleResult)) : WikiResult :=
  { key := key, title := title, lang := lang,
    url := wiki_page_url lang key, summary := summary,
    simple_results := setSimpleResults title simple_results }

/-! ### Cache store (`asyncwiki/database/orm.py` / `tables.py`, absent from the sources) -/

/-- Modelled from the spec: §3 CachedPage / §6 cache store boundary — a
stored page row: key, title, language, summary, up to 5 related-result
strings of the form `"title|reference"`, and a row identity for
foreign-key linkage. -/
structure WikiDBPages where
  id : Nat
  key : String
  title : String
  lang : String
  summary : String
  simple_results : List String
deriving DecidableEq, Repr

/-- Modelled from the spec: §3 CachedQueryMapping — a
`(query text, language, page identity)` row. -/
structure WikiDBQueries where
  query : String
  lang : String
  page_id : Nat
deriving DecidableEq, Repr

/-- Modelled from the spec: the relational store behind the ORM —
page rows, query-mapping rows and the next fresh page identity. -/
structure DBState where
  pages : List WikiDBPages
  queries : List WikiDBQueries
  next_id : Nat
deriving DecidableEq, Repr

/-- Modelled from the spec: §6 `findPageByKey(key, lang)`
(`orm.select_page_by_key`) — exact match on key and language. -/
def select_page_by_key (key lang : String) (db : DBState) : Option WikiDBPages :=
  db.pages.find? (fun r => r.key == key && r.lang == lang)

/-- Modelled from the spec: §6 `findPageIdByQuery` restricted to the key
lookup used by the save path (`orm.select_page_id_by_key`). -/
def select_page_id_by_key (key lang : String) (db : DBState) : Option Nat :=
  (select_page_by_key key lang db).map (fun r => r.id)

/-- Modelled from the spec: §6 `findPageByQuery(query, lang)`
(`orm.select_page_by_query`) — follow the exact-match query mapping to
its page row. -/
def select_page_by_query (query lang : String) (db : DBState) : Option WikiDBPages :=
  match db.queries.find? (fun r => r.query == query && r.lang == lang) with
  | none => none
  | some qr => db.pages.find? (fun p => p.id == qr.page_id)

/-- Modelled from the spec: the query-mapping existence check used by the
save path (`orm.select_query_id`) — exact match on query text, language
and page identity. -/
def select_query_id (query lang : String) (page_id : Nat) (db : DBState) :
    Option WikiDBQueries :=
  db.queries.find? (fun r => r.query == query && r.lang == lang && r.page_id == page_id)

/-- Modelled from the spec: §6 `insertPage(result) -> id`
(`orm.add_page`) — append a full page row built from the result, the
related results stored as `"title|reference"` strings, and return the
fresh identity. -/
def add_page (result : WikiResult) (db : DBState) : DBState × Nat :=
  let row : WikiDBPages :=
    { id := db.next_id, key := result.key, title := result.title,
      lang := result.lang, summary := result.summary,
      simple_results := (result.simple_results.getD []).map
        (fun sr => sr.title ++ "|" ++ sr.raw_link) }
  ({ pages := db.pages ++ [row], queries := db.queries,
     next_id := db.next_id + 1 }, db.next_id)

/-- Modelled from the spec: §6 `insertQueryMapping(query, lang, pageId)`
(`orm.add_query`) — append a query-mapping row. -/
def add_query (query lang : String) (page_id : Nat) (db : DBState) : DBState :=
  { db with queries := db.queries ++ [⟨query, lang, page_id⟩] }

/-- `sqlalchemy.exc.DBAPIError`, re-raised by the save path. -/
inductive DBAPIError where
  | mk
deriving DecidableEq, Repr

/-! ### Cache orchestrator (`asyncwiki/searchers/db_searcher.py`) -/

/-- `db_searcher.py` `WikiDBSearcher.__simple_results_converter`
(lines 239–271): in default mode rebuild `WikiSimpleResult` entries from
the truthy stored strings, splitting each on `|` (first piece is the
title, last piece the reference); in fast mode fall through and return
`None`. -/
def simple_results_converter (page : WikiDBPages) (search_mode : WPSearchModes) :
    Option (List WikiSimpleResult) :=
  if search_mode = WPSearchModes.default then
    some ((page.simple_results.filter (fun res => res ≠ "")).map
      (fun res => mkWikiSimpleResult ((pySplit res "|").headD "")
        ((pySplit res "|").getLastD "") page.lang))
  else
    none

/-- `db_searcher.py` `WikiDBSearcher.__search` (lines 161–179): link
queries are looked up by the trailing path segment of the query, other
queries through the query mapping; a found page row is converted back
into a `WikiResult` (running the `simple_results` setter). -/
def db_searcher_search (wq : WikiQuery) (db : DBState) : Option WikiResult :=
  let lang := wq.lang
  let page :=
    if truthy wq.is_link then
      select_page_by_key ((pySplit wq.query "/").getLastD "") lang db
    else
      select_page_by_query wq.query lang db
  match page with
  | none => none
  | some page =>
    some (mkWikiResult page.key page.title page.lang page.summary
      (simple_results_converter page wq.search_params.mode))

/-- Second half of `db_searcher.py` `WikiDBSearcher.__save_result`
(lines 224–235): look up the query mapping by the lowercased query,
language and page identity; insert it only when absent.  `insert_ok`
is the storage oracle — `false` makes the insert raise `DBAPIError`,
which the function logs and re-raises.  Also returns the number of
inserts performed. -/
def save_result_query_step (insert_ok : Bool) (query : String)
    (result : WikiResult) (page_id : Nat) (inserts : Nat) (db : DBState) :
    Except DBAPIError (DBState × Nat) :=
  match select_query_id query result.lang page_id db with
  | none =>
    if insert_ok then
      .ok (add_query query result.lang page_id db, inserts + 1)
    else
      .error .mk
  | some _ => .ok (db, inserts)

/-- `db_searcher.py` `WikiDBSearcher.__save_result` (lines 205–237):
no-op unless `result.simple_results` is truthy (a non-empty list);
otherwise lowercase the query, insert the page row if its `(key, lang)`
is absent (else log "already exist"), then insert the query mapping if
absent (else log "already exist").  `insert_page_ok` / `insert_query_ok`
are the storage oracles; a failed insert raises `DBAPIError` after a
critical log.  Also returns the number of inserts performed. -/
def save_result (insert_page_ok insert_query_ok : Bool) (query : String)
    (result : WikiResult) (db : DBState) : Except DBAPIError (DBState × Nat) :=
  match result.simple_results with
  | some (r :: rs) =>
    let _ := r
    let _ := rs
    let q := pyLower query
    match select_page_id_by_key result.key result.lang db with
    | none =>
      if insert_page_ok then
        let (db1, page_id) := add_page result db
        save_result_query_step insert_query_ok q result page_id 1 db1
      else
        .error .mk
    | some page_id => save_result_query_step insert_query_ok q result page_id 0 db
  | _ => .ok (db, 0)

/-! ### Web searchers (`asyncwiki/searchers/web_searcher/`) -/

/-- `asyncwiki/exc.py` `WikiScraperExc` (module absent from the sources;
the spec's retrieval-strategy failure). -/
inductive WikiScraperExc where
  | mk
deriving DecidableEq, Repr

/-- `asyncwiki/exc.py` `WikiNoneSearchResults` ("no results" from the
API facets). -/
inductive WikiNoneSearchResults where
  | mk
deriving DecidableEq, Repr

/-- `web_searcher/main.py` line 78: the `assert` guarding the fast
scraper — it runs exactly when `mode == fast` or the query is a link. -/
def fast_precondition (wq : WikiQuery) : Bool :=
  (wq.search_params.mode == WPSearchModes.fast) || truthy wq.is_link

/-- `web_searcher/main.py` `WikiWebSearcher.search` (lines 74–102), with
the two strategies abstracted as outcome oracles (`fast` for
`WikiFastWebSearcher.fast_search`, `api` for
`WikiApiWebSearcher.api_search`; `.error` is a raised `WikiScraperExc`).
Returns the result and whether the fast strategy was attempted.  A fast
failure (or the failed `assert`) falls through to the API strategy; an
API failure leaves the result `None` — nothing is raised. -/
def wiki_web_searcher_search (fast api : Except WikiScraperExc WikiResult)
    (wq : WikiQuery) : Option WikiResult × Bool :=
  if fast_precondition wq then
    match fast with
    | .ok r => (some r, true)
    | .error _ =>
      match api with
      | .ok r => (some r, true)
      | .error _ => (none, true)
  else
    match api with
    | .ok r => (some r, false)
    | .error _ => (none, false)

/-- `api_searcher.py` lines 109–110: the candidate count requested from
both facets — `number_of_results += number_of_results * 5`. -/
def api_request_limit (p : WikiSearchParams) : Nat :=
  p.number_of_results + p.number_of_results * 5

/-- `api_searcher.py` lines 135–149: prefer the facet matching the
configured priority; fall back to the other when it is empty. -/
def api_chosen_pages (priority : WPSearchPriority)
    (title_pages content_pages : List (String × String)) :
    List (String × String) :=
  if priority = WPSearchPriority.content then
    if content_pages.isEmpty then title_pages else content_pages
  else
    if title_pages.isEmpty then content_pages else title_pages

/-- `asyncwiki/tuples.py` `APISearchResult` (module absent from the
sources): the ordered title and key lists returned by the facet search. -/
structure APISearchResult where
  titles : List String
  keys : List String
deriving DecidableEq, Repr

/-- `api_searcher.py` `WikiApiWebSearcher.__api_search_page`
(lines 106–171): both facet requests ask for `api_request_limit p`
candidates; the parsed `pages` fields are reconciled by priority; zero
candidates raise `WikiNoneSearchResults`; the collection loop appends
`(title, key)` pairs in order and breaks once `i + 1` equals the
(already multiplied) `number_of_results` — i.e. it keeps up to
`api_request_limit p` entries (all of them when the limit is 0, since
`i + 1 == 0` never holds).  Returns the request limit together with the
result lists. -/
def api_search_page (p : WikiSearchParams)
    (title_pages content_pages : List (String × String)) :
    Except WikiNoneSearchResults (Nat × APISearchResult) :=
  let number_of_results := api_request_limit p
  let pages := api_chosen_pages p.priority title_pages content_pages
  if pages.isEmpty then
    .error .mk
  else
    let taken := if number_of_results = 0 then pages else pages.take number_of_results
    .ok (number_of_results, ⟨taken.map Prod.fst, taken.map Prod.snd⟩)

/-! ### Top-level search (`asyncwiki/main.py`, `WikiSearcher.search`) -/

/-- What one `WikiSearcher.search` call produced: the returned value (or
the exception propagated from the cache write-back), whether the database
lookup ran, whether the web searcher ran, the database state afterwards,
and the state of the caller's shared search-parameters object
afterwards. -/
structure SearchOutcome where
  res : Except DBAPIError (Option WikiResult)
  db_queried : Bool
  web_called : Bool
  db : DBState
  params : WikiSearchParams
deriving DecidableEq, Repr

/-- `main.py` `WikiSearcher.search` (lines 94–145).  `db_configured`
models `self.__db_searcher is not None`; `web` abstracts
`WikiWebSearcher.search`; the insert oracles model storage failures
inside the write-back.  Control flow follows the source: build the
`WikiQuery` (which may raise), try the database when configured and
`db_search == yes` (a miss or `WikiDBExc` falls through), otherwise call
the web searcher; `None` from the web is returned as-is; a web result is
written back unless no database is configured, the query is a link, or
the treatment is `without` — and a `DBAPIError` raised by that write-back
propagates to the caller (there is no `try` around it). -/
def wiki_searcher_search (tok : String → List String) (db_configured : Bool)
    (web : WikiQuery → Option WikiResult) (insert_page_ok insert_query_ok : Bool)
    (query lang : String) (p : WikiSearchParams) (db : DBState) :
    Except PyExc SearchOutcome :=
  match mkWikiQuery tok query lang p with
  | .error e => .error e
  | .ok wq =>
  let sp := wq.search_params
  let db_queried := db_configured && (sp.db_search == WPDBSearch.yes)
  let db_hit := if db_queried then db_searcher_search wq db else none
  match db_hit with
  | some r => .ok ⟨.ok (some r), db_queried, false, db, sp⟩
  | none =>
    match web wq with
    | none => .ok ⟨.ok none, db_queried, true, db, sp⟩
    | some r =>
      if ¬db_configured ∨ truthy wq.is_link ∨
          sp.query_treatment = WPQueryTreatments.without then
        .ok ⟨.ok (some r), db_queried, true, db, sp⟩
      else
        match save_result insert_page_ok insert_query_ok wq.query r db with
        | .ok (db', _) => .ok ⟨.ok (some r), db_queried, true, db', sp⟩
        | .error e => .ok ⟨.error e, db_queried, true, db, sp⟩

/-! ### Helper lemmas -/

/-- Pushing `skipFilter` over a non-matching head. -/
theorem skipFilter_cons_of_not_match (title : String) (x : WikiSimpleResult)
    (tail : List WikiSimpleResult) (h : ¬ pyLower x.title = pyLower title) :
    skipFilter title (x :: tail) = x :: skipFilter title tail := by
  cases tail with
  | nil => simp [skipFilter, h]
  | cons y rest => simp [skipFilter, h]

/-- The fuelled iterator loop agrees with the pure two-step recursion
`skipFilter` below the processed prefix, for any sufficient fuel. -/
theorem simple_results_filter_le_fuel (title : String) :
    ∀ (fuel : Nat) (l : List WikiSimpleResult) (i : Nat),
      l.length - i ≤ fuel →
      simple_results_filter title fuel l i = l.take i ++ skipFilter title (l.drop i) := by
  intro fuel
  induction fuel with
  | zero =>
    intro l i h
    have hi : l.length ≤ i := by omega
    simp [simple_results_filter, List.take_of_length_le hi,
      List.drop_eq_nil_of_le hi, skipFilter]
  | succ fuel ih =>
    intro l i h
    by_cases hi : i < l.length
    · by_cases hm : pyLower l[i].title = pyLower title
      · have hlen : (l.eraseIdx i).length - (i+1) ≤ fuel := by
          simp [List.length_eraseIdx, hi]
          omega
        have hstep :
            simple_results_filter title (fuel+1) l i =
              simple_results_filter title fuel (l.eraseIdx i) (i+1) := by
          simp [simple_results_filter, hi, List.get_eq_getElem, hm]
        rw [hstep, ih _ _ hlen, List.eraseIdx_eq_take_drop_succ,
          List.take_append_eq_append_take, List.drop_append_eq_append_drop,
          List.drop_eq_getElem_cons hi]
        have hlt : (l.take i).length = i := List.length_take_of_le (by omega)
        rw [hlt]
        have h1 : (l.take i).take (i+1) = l.take i := by
          rw [List.take_take]
          congr 1
          omega
        have h2 : (l.take i).drop (i+1) = [] :=
          List.drop_eq_nil_of_le (by rw [hlt]; omega)
        have h3 : i + 1 - i = 1 := by omega
        rw [h1, h2, h3]
        cases hd : l.drop (i+1) with
        | nil =>
          simp [skipFilter, hm]
        | cons y rest2 =>
          simp [skipFilter, hm, List.append_assoc]
      · have hstep :
            simple_results_filter title (fuel+1) l i =
              simple_results_filter title fuel l (i+1) := by
          simp [simple_results_filter, hi, List.get_eq_getElem, hm]
        rw [hstep, ih _ _ (by omega), List.drop_eq_getElem_cons hi,
          skipFilter_cons_of_not_match title _ _ hm]
        have haux : l.take (i+1) = l.take i ++ [l[i]] := by
          rw [List.take_succ, List.getElem?_eq_getElem hi]
          rfl
        rw [haux, List.append_assoc, List.singleton_append]
    · have hi' : l.length ≤ i := by omega
      simp [simple_results_filter, hi, List.take_of_length_le hi',
        List.drop_eq_nil_of_le hi', skipFilter]

/-- `skipFilter` only keeps elements of its input. -/
theorem skipFilter_sublist (title : String) (l : List WikiSimpleResult) :
    List.Sublist (skipFilter title l) l := by
  induction l using skipFilter.induct title with
  | case1 => simp [skipFilter]
  | case2 x h => simp [skipFilter, h]
  | case3 x h => simp [skipFilter, h]
  | case4 x y rest h ih =>
    simp only [skipFilter, if_pos h]
    exact ((ih.cons₂ y).cons x)
  | case5 x y rest h ih =>
    simp only [skipFilter, if_neg h]
    exact ih.cons₂ x

/-- When the input holds at most one self-match, the survivors of
`skipFilter` contain none (with two or more, the removal-while-iterating
skip can let one through). -/
theorem skipFilter_no_match (title : String) (l : List WikiSimpleResult) :
    l.countP (fun sr => pyLower sr.title == pyLower title) ≤ 1 →
    ∀ x ∈ skipFilter title l, ¬ pyLower x.title = pyLower title := by
  induction l using skipFilter.induct title with
  | case1 => simp [skipFilter]
  | case2 x hx => simp [skipFilter, hx]
  | case3 x hx =>
    intro _
    simp only [skipFilter, if_neg hx, List.mem_singleton]
    rintro z rfl
    exact hx
  | case4 x y rest hx ih =>
    intro h
    have hcount : (y :: rest).countP (fun sr => pyLower sr.title == pyLower title) = 0 := by
      have hc := List.countP_cons (fun sr => pyLower sr.title == pyLower title) x (y :: rest)
      simp only [beq_iff_eq, hx, if_pos] at hc
      omega
    rw [List.countP_eq_zero] at hcount
    simp only [skipFilter, if_pos hx]
    intro z hz
    rcases List.mem_cons.mp hz with hzy | hz'
    · rw [hzy]
      have := hcount y (List.mem_cons_self y rest)
      simpa using this
    · have hzrest : z ∈ rest := (skipFilter_sublist title rest).mem hz'
      have := hcount z (List.mem_cons_of_mem y hzrest)
      simpa using this
  | case5 x y rest hx ih =>
    intro h
    simp only [skipFilter, if_neg hx]
    intro z hz
    rcases List.mem_cons.mp hz with hzx | hz'
    · rw [hzx]
      exact hx
    · refine ih ?_ z hz'
      have hc := List.countP_cons (fun sr => pyLower sr.title == pyLower title) x (y :: rest)
      simp only [beq_iff_eq, hx, if_neg] at hc
      omega

/-- The `simple_results` setter runs the iterator loop at fuel
`l.length`, which is always sufficient. -/
theorem setSimpleResults_eq (title : String) (l : List WikiSimpleResult) :
    setSimpleResults title (some l) =
      (if (skipFilter title l).isEmpty then none
       else some ((skipFilter title l).take 5)) := by
  have h := simple_results_filter_le_fuel title l.length l 0 (by omega)
  simp only [List.take_zero, List.drop_zero, List.nil_append] at h
  simp [setSimpleResults, h]

/-- The four possible results of `__link_checker`: an `IndexError`, the
non-`https:` `False` branch, the unrecognized-host `None` fall-through
(both leaving language and parameters untouched), or a recognized link,
which overrides the language and downgrades the shared parameters
object's `db_search` when the link-cache option is disabled. -/
theorem link_checker_spec (q lang : String) (p : WikiSearchParams) :
    link_checker q lang p = .error .indexError ∨
    link_checker q lang p = .ok (some false, lang, p) ∨
    link_checker q lang p = .ok (none, lang, p) ∨
    (∃ lang2, link_checker q lang p = .ok (some true, lang2,
      if p.db_search_by_url = WPDBSearchByURL.no then
        { p with db_search := WPDBSearch.no } else p)) := by
  unfold link_checker
  dsimp only
  repeat' split
  all_goals first
    | exact Or.inl rfl
    | exact Or.inr (Or.inl rfl)
    | exact Or.inr (Or.inr (Or.inl rfl))
    | exact Or.inr (Or.inr (Or.inr ⟨_, rfl⟩))

/-- A construction that is not a link leaves the caller's language and
shared parameters object untouched. -/
theorem link_checker_not_link {q lang : String} {p : WikiSearchParams}
    {il : Option Bool} {lang' : String} {p' : WikiSearchParams}
    (h : link_checker q lang p = .ok (il, lang', p'))
    (hil : truthy il = false) : p' = p ∧ lang' = lang := by
  rcases link_checker_spec q lang p with hc | hc | hc | ⟨lang2, hc⟩ <;>
    rw [hc] at h
  · cases h
  · simp only [Except.ok.injEq, Prod.mk.injEq] at h
    exact ⟨h.2.2.symm, h.2.1.symm⟩
  · simp only [Except.ok.injEq, Prod.mk.injEq] at h
    exact ⟨h.2.2.symm, h.2.1.symm⟩
  · simp only [Except.ok.injEq, Prod.mk.injEq] at h
    rw [← h.1] at hil
    simp [truthy] at hil

/-- A recognized link with the link-cache option disabled downgrades the
shared parameters object's `db_search` to `no`. -/
theorem link_checker_link_downgrades {q lang : String} {p : WikiSearchParams}
    {lang' : String} {p' : WikiSearchParams}
    (h : link_checker q lang p = .ok (some true, lang', p'))
    (hurl : p.db_search_by_url = WPDBSearchByURL.no) :
    p'.db_search = WPDBSearch.no := by
  rcases link_checker_spec q lang p with hc | hc | hc | ⟨lang2, hc⟩ <;>
    rw [hc] at h
  · cases h
  · simp at h
  · simp at h
  · simp only [Except.ok.injEq, Prod.mk.injEq] at h
    rw [← h.2.2, if_pos hurl]

/-- `link_checker` never turns `db_search = no` back on. -/
theorem link_checker_preserves_db_search_no {q lang : String}
    {p : WikiSearchParams} {il : Option Bool} {lang' : String}
    {p' : WikiSearchParams}
    (h : link_checker q lang p = .ok (il, lang', p'))
    (hno : p.db_search = WPDBSearch.no) : p'.db_search = WPDBSearch.no := by
  rcases link_checker_spec q lang p with hc | hc | hc | ⟨lang2, hc⟩ <;>
    rw [hc] at h
  · cases h
  · simp only [Except.ok.injEq, Prod.mk.injEq] at h
    rw [← h.2.2]
    exact hno
  · simp only [Except.ok.injEq, Prod.mk.injEq] at h
    rw [← h.2.2]
    exact hno
  · simp only [Except.ok.injEq, Prod.mk.injEq] at h
    rw [← h.2.2]
    by_cases hc2 : p.db_search_by_url = WPDBSearchByURL.no
    · rw [if_pos hc2]
    · rw [if_neg hc2]
      exact hno

/-- Every successful `WikiSearcher.search` call leaves the caller's
shared parameters object in the state produced by query construction,
and queried the database exactly when one is configured and the
(post-construction) `db_search` flag is `yes`. -/
theorem wiki_searcher_search_parts {tok : String → List String}
    {dbc : Bool} {web : WikiQuery → Option WikiResult} {ipk iqk : Bool}
    {query lang : String} {p : WikiSearchParams} {db : DBState}
    {out : SearchOutcome} {wq : WikiQuery}
    (hq : mkWikiQuery tok query lang p = .ok wq)
    (h : wiki_searcher_search tok dbc web ipk iqk query lang p db = .ok out) :
    out.params = wq.search_params ∧
    out.db_queried = (dbc && (wq.search_params.db_search == WPDBSearch.yes)) := by
  unfold wiki_searcher_search at h
  rw [hq] at h
  dsimp only at h
  repeat' split at h
  all_goals injection h with h'
  all_goals subst h'
  all_goals exact ⟨rfl, rfl⟩

/-- Inversion of a successful `WikiQuery` construction into its
`__link_checker` and `__clean` steps. -/
theorem mkWikiQuery_inv {tok : String → List String} {query lang : String}
    {p : WikiSearchParams} {wq : WikiQuery}
    (h : mkWikiQuery tok query lang p = .ok wq) :
    link_checker query lang p = .ok (wq.is_link, wq.lang, wq.search_params) ∧
    clean tok query wq.is_link wq.search_params = .ok wq.query ∧
    wq.raw_query = query := by
  unfold mkWikiQuery at h
  cases hl : link_checker query lang p with
  | error e =>
    rw [hl] at h
    simp at h
  | ok v =>
    obtain ⟨il, lang', p'⟩ := v
    rw [hl] at h
    dsimp only at h
    cases hc : clean tok query il p' with
    | error e =>
      rw [hc] at h
      simp at h
    | ok qq =>
      rw [hc] at h
      injection h with h'
      subst h'
      exact ⟨rfl, hc, rfl⟩

/-! ### Claims -/

/-- C2 (code bug): the spec says stop words are dropped and the
surviving tokens joined with `_`, but `types.py` line 126 writes
`[word if word.lower() not in query_clean_list else ... for word in spell_split]`,
which replaces each stop word with the `Ellipsis` object, so
`"_".join(words_list)` raises `TypeError` for every non-link normalize
query containing a stop word.  At the spec's own scenario input
`"What is entropy"` (tokens `What`, `is`, `entropy`; `what` and `is`
are stop words) construction raises instead of producing
`entropy`. -/
theorem c2_clean_raises_on_stop_words :
    mkWikiQuery split_words "What is entropy" "en"
      ⟨WPSearchModes.default, WPSearchPriority.title, 1,
       WPQueryTreatments.with_treatment, WPDBSearch.yes, WPDBSearchByURL.yes⟩ =
    .error PyExc.typeError := by decide

/-- C3 (code bug): the spec says query construction never raises, but
`types.py` line 91 indexes `split_query[1]` whenever the query starts
with `https://` and the host has a single dot-separated label:
`WikiQuery("https://localhost", "en", params)` raises `IndexError`
(and stop-word queries raise `TypeError`, see the C2 theorem). -/
theorem c3_construction_raises_index_error :
    mkWikiQuery split_words "https://localhost" "en"
      ⟨WPSearchModes.default, WPSearchPriority.title, 1,
       WPQueryTreatments.with_treatment, WPDBSearch.yes, WPDBSearchByURL.yes⟩ =
    .error PyExc.indexError := by decide

/-- C4 counterexample: the claim says a stored list value — including
the empty list — stays distinct from `None`, but the setter stores
`simple_results[:5] if simple_results else None`, so the empty list is
stored as `None`; and with two adjacent self-matching entries the
in-place `remove` during iteration skips the second one, which survives
(`"alpha"` case-insensitively equals the result title `"Alpha"`). -/
theorem c4_counterexample :
    setSimpleResults "Alpha" (some []) = none ∧
    setSimpleResults "Alpha"
        (some [⟨"Alpha", "en", "a", "la"⟩, ⟨"alpha", "en", "b", "lb"⟩]) =
      some [⟨"alpha", "en", "b", "lb"⟩] := by decide

/-- C4 (amended): for every input list of length 0–50, when the stored
`simple_results` is a list it is non-empty and has at most 5 entries,
and it contains no entry whose title case-insensitively equals the
result's own title provided the input contained at most one such entry
(two or more may leave a survivor, and an input whose filtered form is
empty — in particular the empty list — is stored as `None`, conflated
with "enrichment not attempted"). -/
theorem c4_simple_results_invariants (title : String)
    (l : List WikiSimpleResult) (_h50 : l.length ≤ 50) :
    (∀ out, setSimpleResults title (some l) = some out →
      out.length ≤ 5 ∧ out ≠ [] ∧
      (l.countP (fun sr => pyLower sr.title == pyLower title) ≤ 1 →
        ∀ sr ∈ out, ¬ pyLower sr.title = pyLower title)) ∧
    (skipFilter title l = [] → setSimpleResults title (some l) = none) := by
  constructor
  · intro out hout
    rw [setSimpleResults_eq] at hout
    by_cases hemp : (skipFilter title l).isEmpty
    · simp [hemp] at hout
    · simp only [hemp, if_neg, Bool.false_eq_true, not_false_eq_true] at hout
      have hout' : out = (skipFilter title l).take 5 := by
        simp at hout
        exact hout.symm
      subst hout'
      refine ⟨?_, ?_, ?_⟩
      · simp [List.length_take]
      · intro hnil
        have hlen := congrArg List.length hnil
        rw [List.length_take] at hlen
        simp only [List.length_nil, Nat.min_eq_zero_iff] at hlen
        have hlz : (skipFilter title l).length = 0 := by omega
        rw [List.length_eq_zero] at hlz
        simp [hlz] at hemp
      · intro hcount sr hsr
        exact skipFilter_no_match title l hcount sr (List.mem_of_mem_take hsr)
  · intro hnil
    rw [setSimpleResults_eq, hnil]
    simp

/-- C4 witness: the amended statement applied at the result title
`"Alpha"` and the singleton input list `[⟨"Beta", …⟩]`. -/
theorem c4_simple_results_invariants_witness :
    (∀ out, setSimpleResults "Alpha" (some [⟨"Beta", "en", "b", "lb"⟩]) = some out →
      out.length ≤ 5 ∧ out ≠ [] ∧
      ([(⟨"Beta", "en", "b", "lb"⟩ : WikiSimpleResult)].countP
          (fun sr => pyLower sr.title == pyLower "Alpha") ≤ 1 →
        ∀ sr ∈ out, ¬ pyLower sr.title = pyLower "Alpha")) ∧
    (skipFilter "Alpha" [⟨"Beta", "en", "b", "lb"⟩] = [] →
      setSimpleResults "Alpha" (some [⟨"Beta", "en", "b", "lb"⟩]) = none) :=
  c4_simple_results_invariants "Alpha" [⟨"Beta", "en", "b", "lb"⟩] (by decide)

/-- C5 counterexample: with `resultCount = 1` the claim predicts a
truncated list of exactly one entry, but the code reuses the multiplied
`number_of_results` (6) as the truncation bound (`api_searcher.py`
line 165: `if i + 1 == number_of_results: break` after lines 109–110
multiplied it), so both title-facet candidates survive. -/
theorem c5_counterexample :
    api_search_page
      ⟨WPSearchModes.default, WPSearchPriority.title, 1,
       WPQueryTreatments.with_treatment, WPDBSearch.yes, WPDBSearchByURL.yes⟩
      [("A", "a"), ("B", "b")] [] =
      .ok (6, ⟨["A", "B"], ["a", "b"]⟩) ∧
    (["A", "B"] : List String).length ≠ 1 := by decide

/-- C5 (amended): both facet requests ask for `resultCount × 6`
candidates, and (for `resultCount ≥ 1`) the chosen candidate list is
truncated to `resultCount × 6` entries — not `resultCount` — preserving
the remote ranking order with no secondary sort. -/
theorem c5_api_overfetch_and_truncation (p : WikiSearchParams)
    (title_pages content_pages : List (String × String))
    (lim : Nat) (res : APISearchResult)
    (h1 : 1 ≤ p.number_of_results)
    (h2 : api_search_page p title_pages content_pages = .ok (lim, res)) :
    lim = 6 * p.number_of_results ∧
    res.titles = ((api_chosen_pages p.priority title_pages content_pages).map
      Prod.fst).take (6 * p.number_of_results) ∧
    res.keys = ((api_chosen_pages p.priority title_pages content_pages).map
      Prod.snd).take (6 * p.number_of_results) := by
  have hlim : api_request_limit p = 6 * p.number_of_results := by
    unfold api_request_limit
    ring
  unfold api_search_page at h2
  by_cases hemp : (api_chosen_pages p.priority title_pages content_pages).isEmpty
  · simp [hemp] at h2
  · have hne : ¬ api_request_limit p = 0 := by
      rw [hlim]
      omega
    simp only [hemp, Bool.false_eq_true, if_neg, not_false_eq_true, hne,
      Except.ok.injEq, Prod.mk.injEq] at h2
    obtain ⟨hl, hr⟩ := h2
    subst hl
    rw [← hr]
    refine ⟨hlim, ?_, ?_⟩ <;> simp [← hlim, List.map_take]

/-- C5 witness: the amended statement at `resultCount = 1` with a
single title-facet candidate. -/
theorem c5_api_overfetch_and_truncation_witness :
    (6 : Nat) = 6 * 1 ∧
    (⟨["A"], ["a"]⟩ : APISearchResult).titles =
      ((api_chosen_pages WPSearchPriority.title [("A", "a")] []).map
        Prod.fst).take (6 * 1) ∧
    (⟨["A"], ["a"]⟩ : APISearchResult).keys =
      ((api_chosen_pages WPSearchPriority.title [("A", "a")] []).map
        Prod.snd).take (6 * 1) := by
  have h := c5_api_overfetch_and_truncation
    ⟨WPSearchModes.default, WPSearchPriority.title, 1,
     WPQueryTreatments.with_treatment, WPDBSearch.yes, WPDBSearchByURL.yes⟩
    [("A", "a")] [] 6 ⟨["A"], ["a"]⟩ (by decide) (by decide)
  simpa using h

/-- C8 (confirmed): in `WikiWebSearcher.search` the fast strategy is
attempted exactly when `mode == fast` or the query is a link; when the
fast attempt raises a scraper failure the API strategy's success is
returned (the fast failure is not surfaced); and when the API strategy
also fails the orchestrator returns `None` rather than raising. -/
theorem c8_web_orchestrator_fallback (wq : WikiQuery)
    (fast api : Except WikiScraperExc WikiResult) :
    ((wiki_web_searcher_search fast api wq).2 = fast_precondition wq) ∧
    ((wiki_web_searcher_search (.error .mk) api wq).1 =
      match api with
      | .ok r => some r
      | .error _ => none) ∧
    ((wiki_web_searcher_search (.error .mk) (.error .mk) wq).1 = none) := by
  unfold wiki_web_searcher_search
  refine ⟨?_, ?_, ?_⟩ <;>
    cases hp : fast_precondition wq <;>
    cases fast <;> cases api <;> simp [hp]

/-- C9 (confirmed): for every raw query whose first `//`-split piece is
`https:` (i.e. it starts with the `https://` scheme) and whose host has
two dot-separated labels with the first equal to `"wikipedia"`, or three
with the second equal to `"wikipedia"`, construction succeeds with
`isLink = True` and the key equal to the raw input unchanged; with a
three-label host the first label replaces the caller-supplied language
code, with a two-label host the language is kept. -/
theorem c9_link_detection (tok : String → List String) (raw lang : String)
    (p : WikiSearchParams) (s1 : String) (rest labels : List String)
    (h1 : pySplit raw "//" = "https:" :: s1 :: rest)
    (h2 : pySplit ((pySplit s1 "/").headD "") "." = labels)
    (h3 : (labels.length = 2 ∧ labels.get? 0 = some "wikipedia") ∨
          (labels.length = 3 ∧ labels.get? 1 = some "wikipedia")) :
    ∃ wq, mkWikiQuery tok raw lang p = .ok wq ∧
      wq.is_link = some true ∧ wq.query = raw ∧ wq.raw_query = raw ∧
      (labels.length = 2 → wq.lang = lang) ∧
      (labels.length = 3 → wq.lang = labels.headD lang) := by
  rcases h3 with ⟨hlen, hget⟩ | ⟨hlen, hget⟩
  · have hget' : labels[0]? = some "wikipedia" := by simpa using hget
    have h2' : pySplit ((pySplit s1 "/").head?.getD "") "." = labels := by
      simpa using h2
    have hlc : link_checker raw lang p =
        .ok (some true, lang,
          if p.db_search_by_url = WPDBSearchByURL.no then
            { p with db_search := WPDBSearch.no } else p) := by
      simp only [link_checker, h1]
      rw [List.headD_eq_head?_getD, h2']
      simp [hlen, hget']
    have hmk : mkWikiQuery tok raw lang p = .ok
        ⟨raw, lang,
          (if p.db_search_by_url = WPDBSearchByURL.no then
            { p with db_search := WPDBSearch.no } else p), some true, raw⟩ := by
      unfold mkWikiQuery
      rw [hlc]
      rfl
    exact ⟨_, hmk, rfl, rfl, rfl, fun _ => rfl,
      fun h3' => absurd h3' (by omega)⟩
  · have hget' : labels[1]? = some "wikipedia" := by simpa using hget
    have h2' : pySplit ((pySplit s1 "/").head?.getD "") "." = labels := by
      simpa using h2
    have hlc : link_checker raw lang p =
        .ok (some true, labels.headD lang,
          if p.db_search_by_url = WPDBSearchByURL.no then
            { p with db_search := WPDBSearch.no } else p) := by
      simp only [link_checker, h1]
      rw [List.headD_eq_head?_getD, h2']
      simp [hlen, hget', List.headD_eq_head?_getD]
    have hmk : mkWikiQuery tok raw lang p = .ok
        ⟨raw, labels.headD lang,
          (if p.db_search_by_url = WPDBSearchByURL.no then
            { p with db_search := WPDBSearch.no } else p), some true, raw⟩ := by
      unfold mkWikiQuery
      rw [hlc]
      rfl
    exact ⟨_, hmk, rfl, rfl, rfl, fun h2x => absurd h2x (by omega),
      fun _ => rfl⟩

/-- C9 witness: the spec's scenario-2 link
`https://en.wikipedia.org/wiki/Gravity` with caller language `ru`:
`isLink` is `True`, the key is the raw link, and the embedded `en`
overrides the language. -/
theorem c9_link_detection_witness :
    ∃ wq, mkWikiQuery split_words "https://en.wikipedia.org/wiki/Gravity" "ru"
      ⟨WPSearchModes.default, WPSearchPriority.title, 1,
       WPQueryTreatments.with_treatment, WPDBSearch.yes, WPDBSearchByURL.yes⟩ = .ok wq ∧
      wq.is_link = some true ∧
      wq.query = "https://en.wikipedia.org/wiki/Gravity" ∧
      wq.raw_query = "https://en.wikipedia.org/wiki/Gravity" ∧
      ((["en", "wikipedia", "org"] : List String).length = 2 → wq.lang = "ru") ∧
      ((["en", "wikipedia", "org"] : List String).length = 3 →
        wq.lang = (["en", "wikipedia", "org"] : List String).headD "ru") :=
  c9_link_detection split_words "https://en.wikipedia.org/wiki/Gravity" "ru"
    ⟨WPSearchModes.default, WPSearchPriority.title, 1,
     WPQueryTreatments.with_treatment, WPDBSearch.yes, WPDBSearchByURL.yes⟩
    "en.wikipedia.org/wiki/Gravity" [] ["en", "wikipedia", "org"]
    (by decide) (by decide) (by decide)

/-- C7 (confirmed, over the spec-modelled store): for a result with a
non-empty related-results list, starting from a store without the page
row `(key, lang)` or the mapping row, calling save twice with the same
`(query, result)` leaves exactly one stored page row for `(key, lang)`
and exactly one mapping row for `(lowercased query, lang, page id)`; the
second call performs no insert and leaves the store unchanged. -/
theorem c7_save_idempotent (q : String) (r : WikiResult)
    (db0 db1 db2 : DBState) (n1 n2 : Nat) (rs : List WikiSimpleResult)
    (hsr : r.simple_results = some rs) (hne : rs ≠ [])
    (hp : ∀ pr ∈ db0.pages, ¬(pr.key = r.key ∧ pr.lang = r.lang))
    (hq : ∀ row ∈ db0.queries, ¬(row.query = pyLower q ∧ row.lang = r.lang))
    (h1 : save_result true true q r db0 = .ok (db1, n1))
    (h2 : save_result true true q r db1 = .ok (db2, n2)) :
    db2 = db1 ∧ n2 = 0 ∧ n1 = 2 ∧
    db2.pages.countP (fun pr => pr.key == r.key && pr.lang == r.lang) = 1 ∧
    db2.queries.countP (fun row =>
      row.query == pyLower q && row.lang == r.lang &&
      row.page_id == db0.next_id) = 1 := by
  cases rs with
  | nil => exact absurd rfl hne
  | cons x xs =>
  have hfp0 : db0.pages.find? (fun pr => pr.key == r.key && pr.lang == r.lang) = none := by
    rw [List.find?_eq_none]
    intro pr hpr
    have := hp pr hpr
    simp only [Bool.and_eq_true, beq_iff_eq]
    tauto
  have hfq0 : db0.queries.find? (fun row =>
      row.query == pyLower q && row.lang == r.lang &&
      row.page_id == db0.next_id) = none := by
    rw [List.find?_eq_none]
    intro row hrow
    have := hq row hrow
    simp only [Bool.and_eq_true, beq_iff_eq]
    tauto
  simp only [save_result, hsr, save_result_query_step, select_page_id_by_key,
    select_page_by_key, select_query_id, add_page, add_query, hfp0, hfq0,
    Option.map_none', Except.ok.injEq, Prod.mk.injEq, if_true] at h1
  obtain ⟨hdb1, hn1⟩ := h1
  subst hn1
  have hrow : ∀ pr : WikiDBPages, pr = ⟨db0.next_id, r.key, r.title, r.lang,
      r.summary, (r.simple_results.getD []).map
        (fun sr => sr.title ++ "|" ++ sr.raw_link)⟩ →
      (pr.key == r.key && pr.lang == r.lang) = true := by
    rintro pr rfl
    simp
  subst hdb1
  simp only [save_result, hsr, save_result_query_step, select_page_id_by_key,
    select_page_by_key, select_query_id, List.find?_append, List.find?_cons,
    hfp0, hfq0, Option.map_none', Option.map_some', Option.or,
    beq_self_eq_true, Bool.and_self, cond_true,
    Except.ok.injEq, Prod.mk.injEq, if_true] at h2
  obtain ⟨hdb2, hn2⟩ := h2
  subst hdb2
  refine ⟨rfl, hn2.symm, rfl, ?_, ?_⟩
  · rw [List.countP_append, List.countP_eq_zero.mpr, Nat.zero_add]
    · simp [List.countP_cons]
    · intro pr hpr
      have := hp pr hpr
      simp only [Bool.and_eq_true, beq_iff_eq]
      tauto
  · rw [List.countP_append, List.countP_eq_zero.mpr, Nat.zero_add]
    · simp [List.countP_cons]
    · intro row hrow
      have := hq row hrow
      simp only [Bool.and_eq_true, beq_iff_eq]
      tauto

/-- C7 witness: saving the same web result for query `"Entropy"` twice
into an empty store. -/
theorem c7_save_idempotent_witness :
    let r := mkWikiResult "Entropy" "Entropy" "en" "long summary"
      (some [mkWikiSimpleResult "Other" "Other_key" "en"])
    let db1 : DBState :=
      ⟨[⟨0, "Entropy", "Entropy", "en", "long summary", ["Other|Other_key"]⟩],
       [⟨"entropy", "en", 0⟩], 1⟩
    db1 = db1 ∧ (0 : Nat) = 0 ∧ (2 : Nat) = 2 ∧
    db1.pages.countP (fun pr => pr.key == r.key && pr.lang == r.lang) = 1 ∧
    db1.queries.countP (fun row =>
      row.query == pyLower "Entropy" && row.lang == r.lang &&
      row.page_id == (0 : Nat)) = 1 := by
  refine c7_save_idempotent "Entropy" _ ⟨[], [], 0⟩ _ _ _ _
    [mkWikiSimpleResult "Other" "Other_key" "en"]
    (by decide) (by decide) (by decide) (by decide) (by decide) (by decide)

/-- C1 counterexample: cache configured, non-link normalize query
`"entropy"`, web result present, write-back condition holds, and the
page insert fails (`insert_page_ok = false`): `search` returns the
propagated `DBAPIError` instead of the web-sourced result — there is no
`try` around `save_result` in `main.py` (the save call sits inside the
`except` handler, so the raised `DBAPIError` leaves `search`). -/
theorem c1_counterexample :
    (wiki_searcher_search split_words true
        (fun _ => some (mkWikiResult "Entropy" "Entropy" "en" "long summary"
          (some [mkWikiSimpleResult "Other" "Other_key" "en"])))
        false true "entropy" "en"
        ⟨WPSearchModes.default, WPSearchPriority.title, 1,
         WPQueryTreatments.with_treatment, WPDBSearch.yes, WPDBSearchByURL.yes⟩
        ⟨[], [], 0⟩).map (fun o => o.res) =
      .ok (.error DBAPIError.mk) := by decide

/-- C1 (amended): when the web path produced a result, the write-back
condition holds (cache configured, non-link query, treatment not
`without`) and the storage layer fails the page insert inside the
write-back, the failure is logged (at critical level inside
`__save_result`) but it IS propagated to the caller of `search`: the
call ends with the `DBAPIError`, not with the web-sourced result. -/
theorem c1_save_failure_propagates (tok : String → List String)
    (web : WikiQuery → Option WikiResult) (iqk : Bool)
    (query lang : String) (p : WikiSearchParams) (db : DBState)
    (wq : WikiQuery) (r : WikiResult) (x : WikiSimpleResult)
    (xs : List WikiSimpleResult) (out : SearchOutcome)
    (h1 : mkWikiQuery tok query lang p = .ok wq)
    (h2 : db_searcher_search wq db = none)
    (h3 : web wq = some r)
    (h4 : truthy wq.is_link = false)
    (h5 : ¬ wq.search_params.query_treatment = WPQueryTreatments.without)
    (h6 : select_page_id_by_key r.key r.lang db = none)
    (h7 : r.simple_results = some (x :: xs))
    (h8 : wiki_searcher_search tok true web false iqk query lang p db = .ok out) :
    out.res = .error DBAPIError.mk := by
  have hrun : wiki_searcher_search tok true web false iqk query lang p db =
      .ok ⟨.error DBAPIError.mk,
        (wq.search_params.db_search == WPDBSearch.yes), true, db,
        wq.search_params⟩ := by
    unfold wiki_searcher_search
    rw [h1]
    dsimp only
    rw [show (if (true && (wq.search_params.db_search == WPDBSearch.yes)) = true
        then db_searcher_search wq db else none) = none from by
      split
      · exact h2
      · rfl]
    simp [save_result, h3, h4, h5, h6, h7]
  rw [hrun] at h8
  injection h8 with h'
  subst h'
  rfl

/-- C1 witness: the amended statement at the counterexample's input. -/
theorem c1_save_failure_propagates_witness :
    (⟨Except.error DBAPIError.mk, true, true, ⟨[], [], 0⟩,
      ⟨WPSearchModes.default, WPSearchPriority.title, 1,
       WPQueryTreatments.with_treatment, WPDBSearch.yes, WPDBSearchByURL.yes⟩⟩ :
      SearchOutcome).res = .error DBAPIError.mk :=
  c1_save_failure_propagates split_words
    (fun _ => some (mkWikiResult "Entropy" "Entropy" "en" "long summary"
      (some [mkWikiSimpleResult "Other" "Other_key" "en"])))
    true "entropy" "en"
    ⟨WPSearchModes.default, WPSearchPriority.title, 1,
     WPQueryTreatments.with_treatment, WPDBSearch.yes, WPDBSearchByURL.yes⟩
    ⟨[], [], 0⟩
    ⟨"entropy", "en",
     ⟨WPSearchModes.default, WPSearchPriority.title, 1,
      WPQueryTreatments.with_treatment, WPDBSearch.yes, WPDBSearchByURL.yes⟩,
     some false, "entropy"⟩
    (mkWikiResult "Entropy" "Entropy" "en" "long summary"
      (some [mkWikiSimpleResult "Other" "Other_key" "en"]))
    (mkWikiSimpleResult "Other" "Other_key" "en") []
    ⟨Except.error DBAPIError.mk, true, true, ⟨[], [], 0⟩,
     ⟨WPSearchModes.default, WPSearchPriority.title, 1,
      WPQueryTreatments.with_treatment, WPDBSearch.yes, WPDBSearchByURL.yes⟩⟩
    (by decide) (by decide) (by decide) (by decide) (by decide) (by decide)
    (by decide) (by decide)

/-- C10 (confirmed): query construction mutates the caller's shared
search-parameters object in place.  For a link query under a
configuration with the link-cache option disabled, the shared object's
`db_search` field is `no` after the search call returns; reusing that
same object for a later (non-link) search makes that call skip the
database lookup as well, even though a database is configured. -/
theorem c10_shared_params_mutation (tok : String → List String)
    (web : WikiQuery → Option WikiResult) (ipk iqk : Bool)
    (q1 lang1 q2 lang2 : String) (p : WikiSearchParams)
    (db db2 : DBState) (wq1 wq2 : WikiQuery) (out1 out2 : SearchOutcome)
    (hurl : p.db_search_by_url = WPDBSearchByURL.no)
    (h1 : mkWikiQuery tok q1 lang1 p = .ok wq1)
    (hlink : wq1.is_link = some true)
    (h2 : wiki_searcher_search tok true web ipk iqk q1 lang1 p db = .ok out1)
    (h3 : mkWikiQuery tok q2 lang2 out1.params = .ok wq2)
    (_hnl : truthy wq2.is_link = false)
    (h4 : wiki_searcher_search tok true web ipk iqk q2 lang2 out1.params db2 =
      .ok out2) :
    out1.params.db_search = WPDBSearch.no ∧ out2.db_queried = false := by
  obtain ⟨hp1, _⟩ := wiki_searcher_search_parts h1 h2
  obtain ⟨hlc1, _, _⟩ := mkWikiQuery_inv h1
  rw [hlink] at hlc1
  have hds1 : wq1.search_params.db_search = WPDBSearch.no :=
    link_checker_link_downgrades hlc1 hurl
  have hout1 : out1.params.db_search = WPDBSearch.no := by
    rw [hp1]
    exact hds1
  refine ⟨hout1, ?_⟩
  obtain ⟨_, hdq2⟩ := wiki_searcher_search_parts h3 h4
  obtain ⟨hlc2, _, _⟩ := mkWikiQuery_inv h3
  have hds2 : wq2.search_params.db_search = WPDBSearch.no :=
    link_checker_preserves_db_search_no hlc2 hout1
  rw [hdq2, hds2]
  rfl

/-- C10 witness: the link `https://en.wikipedia.org/wiki/Gravity` with
the link-cache option disabled, then reusing the mutated parameters
object for the non-link query `"entropy"`. -/
theorem c10_shared_params_mutation_witness :
    (⟨WPSearchModes.default, WPSearchPriority.title, 1,
      WPQueryTreatments.with_treatment, WPDBSearch.no, WPDBSearchByURL.no⟩ :
      WikiSearchParams).db_search = WPDBSearch.no ∧
    (⟨Except.ok none, false, true, ⟨[], [], 0⟩,
      ⟨WPSearchModes.default, WPSearchPriority.title, 1,
       WPQueryTreatments.with_treatment, WPDBSearch.no, WPDBSearchByURL.no⟩⟩ :
      SearchOutcome).db_queried = false := by
  have h := c10_shared_params_mutation split_words (fun _ => none) true true
    "https://en.wikipedia.org/wiki/Gravity" "en" "entropy" "en"
    ⟨WPSearchModes.default, WPSearchPriority.title, 1,
     WPQueryTreatments.with_treatment, WPDBSearch.yes, WPDBSearchByURL.no⟩
    ⟨[], [], 0⟩ ⟨[], [], 0⟩
    ⟨"https://en.wikipedia.org/wiki/Gravity", "en",
     ⟨WPSearchModes.default, WPSearchPriority.title, 1,
      WPQueryTreatments.with_treatment, WPDBSearch.no, WPDBSearchByURL.no⟩,
     some true, "https://en.wikipedia.org/wiki/Gravity"⟩
    ⟨"entropy", "en",
     ⟨WPSearchModes.default, WPSearchPriority.title, 1,
      WPQueryTreatments.with_treatment, WPDBSearch.no, WPDBSearchByURL.no⟩,
     some false, "entropy"⟩
    ⟨Except.ok none, false, true, ⟨[], [], 0⟩,
     ⟨WPSearchModes.default, WPSearchPriority.title, 1,
      WPQueryTreatments.with_treatment, WPDBSearch.no, WPDBSearchByURL.no⟩⟩
    ⟨Except.ok none, false, true, ⟨[], [], 0⟩,
     ⟨WPSearchModes.default, WPSearchPriority.title, 1,
      WPQueryTreatments.with_treatment, WPDBSearch.no, WPDBSearchByURL.no⟩⟩
    (by decide) (by decide) (by decide) (by decide) (by decide) (by decide)
    (by decide)
  exact h

/-- C6 counterexample: the cleaned query for raw `"Entropy"` is
`"Entropy"` (one token, no stop words), the write-back stores the mapping
lowercased as `"entropy"` (`__save_result` does `query = query.lower()`),
but the repeat lookup uses the unlowercased `"Entropy"`
(`__search` passes `wiki_query.query` as-is), misses, and the second
search calls the web searcher again (`web_called = true`). -/
theorem c6_counterexample :
    (let web : WikiQuery → Option WikiResult := fun _ =>
      some (mkWikiResult "Entropy" "Entropy" "en" "long summary"
        (some [mkWikiSimpleResult "Other" "Other_key" "en"]))
     let p : WikiSearchParams :=
      ⟨WPSearchModes.default, WPSearchPriority.title, 1,
       WPQueryTreatments.with_treatment, WPDBSearch.yes, WPDBSearchByURL.yes⟩
     (wiki_searcher_search split_words true web true true "Entropy" "en" p
        ⟨[], [], 0⟩).bind (fun out1 =>
      (wiki_searcher_search split_words true web true true "Entropy" "en"
          out1.params out1.db).map (fun out2 =>
        (out1.res, out1.db.queries, out2.web_called)))) =
    .ok (.ok (some (mkWikiResult "Entropy" "Entropy" "en" "long summary"
        (some [mkWikiSimpleResult "Other" "Other_key" "en"]))),
      [⟨"entropy", "en", 0⟩], true) := by decide

/-- C6 (amended): after a web-sourced result for a non-link query has
been successfully written back (cache configured, `db_search = yes`,
treatment not `without`, non-empty related results, fresh store rows),
repeating the search with the same raw query and language is served from
the cache — the query-mapping lookup hits the stored page and the web
searcher is not called — provided the normalized query equals its own
lowercase form; the write-back stores the mapping lowercased while the
lookup uses the unlowercased normalized query, so a query whose
normalized form contains an uppercase letter misses (see the
counterexample). -/
theorem c6_writeback_roundtrip (tok : String → List String)
    (web : WikiQuery → Option WikiResult) (query lang : String)
    (p : WikiSearchParams) (db0 : DBState) (wq : WikiQuery) (r : WikiResult)
    (x : WikiSimpleResult) (xs : List WikiSimpleResult)
    (h1 : mkWikiQuery tok query lang p = .ok wq)
    (h2 : truthy wq.is_link = false)
    (h3 : wq.search_params.db_search = WPDBSearch.yes)
    (h4 : ¬ wq.search_params.query_treatment = WPQueryTreatments.without)
    (h5 : web wq = some r)
    (h6 : r.simple_results = some (x :: xs))
    (h7 : r.lang = wq.lang)
    (h8 : pyLower wq.query = wq.query)
    (h9 : ∀ row ∈ db0.queries, ¬(row.query = wq.query ∧ row.lang = wq.lang))
    (h10 : ∀ pr ∈ db0.pages, ¬(pr.key = r.key ∧ pr.lang = r.lang))
    (h11 : ∀ pr ∈ db0.pages, ¬ pr.id = db0.next_id) :
    ∃ out1, wiki_searcher_search tok true web true true query lang p db0 =
        .ok out1 ∧
      out1.res = .ok (some r) ∧
      ∃ out2, wiki_searcher_search tok true web true true query lang
          out1.params out1.db = .ok out2 ∧
        out2.web_called = false ∧ out2.db_queried = true ∧
        ∃ r2, out2.res = .ok (some r2) := by
  have hfq0 : db0.queries.find?
      (fun row => row.query == wq.query && row.lang == wq.lang) = none := by
    rw [List.find?_eq_none]
    intro row hrow
    have := h9 row hrow
    simp only [Bool.and_eq_true, beq_iff_eq]
    tauto
  have hfp0 : db0.pages.find?
      (fun pr => pr.key == r.key && pr.lang == r.lang) = none := by
    rw [List.find?_eq_none]
    intro pr hpr
    have := h10 pr hpr
    simp only [Bool.and_eq_true, beq_iff_eq]
    tauto
  have hfq0x : db0.queries.find? (fun row => row.query == pyLower wq.query &&
      row.lang == r.lang && row.page_id == db0.next_id) = none := by
    rw [List.find?_eq_none]
    intro row hrow
    have := h9 row hrow
    simp only [Bool.and_eq_true, beq_iff_eq, h7, h8]
    tauto
  have hfpid : db0.pages.find? (fun pg => pg.id == db0.next_id) = none := by
    rw [List.find?_eq_none]
    intro pg hpg
    have := h11 pg hpg
    simp only [beq_iff_eq]
    tauto
  have hdbs0 : db_searcher_search wq db0 = none := by
    unfold db_searcher_search
    dsimp only
    rw [h2]
    simp [select_page_by_query, hfq0]
  have hsave : save_result true true wq.query r db0 =
      .ok (⟨db0.pages ++ [⟨db0.next_id, r.key, r.title, r.lang, r.summary,
          (x :: xs).map (fun sr => sr.title ++ "|" ++ sr.raw_link)⟩],
        db0.queries ++ [⟨pyLower wq.query, r.lang, db0.next_id⟩],
        db0.next_id + 1⟩, 2) := by
    simp only [save_result, h6, select_page_id_by_key, select_page_by_key,
      hfp0, Option.map_none', save_result_query_step, add_page, add_query,
      select_query_id, hfq0x, Option.getD_some, if_true, Nat.reduceAdd]
  have hrun1 : wiki_searcher_search tok true web true true query lang p db0 =
      .ok ⟨.ok (some r), true, true,
        ⟨db0.pages ++ [⟨db0.next_id, r.key, r.title, r.lang, r.summary,
            (x :: xs).map (fun sr => sr.title ++ "|" ++ sr.raw_link)⟩],
          db0.queries ++ [⟨pyLower wq.query, r.lang, db0.next_id⟩],
          db0.next_id + 1⟩, wq.search_params⟩ := by
    unfold wiki_searcher_search
    rw [h1]
    dsimp only
    rw [show (if (true && (wq.search_params.db_search == WPDBSearch.yes)) = true
        then db_searcher_search wq db0 else none) = none from by
      rw [if_pos (by simp [h3])]
      exact hdbs0]
    simp [h5, h2, h4, hsave, h3]
  have hsel : select_page_by_query wq.query wq.lang
      ⟨db0.pages ++ [⟨db0.next_id, r.key, r.title, r.lang, r.summary,
          (x :: xs).map (fun sr => sr.title ++ "|" ++ sr.raw_link)⟩],
        db0.queries ++ [⟨pyLower wq.query, r.lang, db0.next_id⟩],
        db0.next_id + 1⟩ =
      some ⟨db0.next_id, r.key, r.title, r.lang, r.summary,
        (x :: xs).map (fun sr => sr.title ++ "|" ++ sr.raw_link)⟩ := by
    unfold select_page_by_query
    dsimp only
    rw [List.find?_append, hfq0]
    simp only [List.find?_cons, h8, h7, beq_self_eq_true, Bool.and_self,
      cond_true, Option.or]
    rw [List.find?_append, hfpid]
    simp [List.find?_cons]
  have hdbs1 : db_searcher_search wq
      ⟨db0.pages ++ [⟨db0.next_id, r.key, r.title, r.lang, r.summary,
          (x :: xs).map (fun sr => sr.title ++ "|" ++ sr.raw_link)⟩],
        db0.queries ++ [⟨pyLower wq.query, r.lang, db0.next_id⟩],
        db0.next_id + 1⟩ =
      some (mkWikiResult r.key r.title r.lang r.summary
        (simple_results_converter ⟨db0.next_id, r.key, r.title, r.lang,
          r.summary, (x :: xs).map (fun sr => sr.title ++ "|" ++ sr.raw_link)⟩
          wq.search_params.mode)) := by
    unfold db_searcher_search
    dsimp only
    rw [h2]
    simp only [Bool.false_eq_true, if_false, hsel]
  obtain ⟨R2, hdbs1⟩ : ∃ R2, db_searcher_search wq
      ⟨db0.pages ++ [⟨db0.next_id, r.key, r.title, r.lang, r.summary,
          (x :: xs).map (fun sr => sr.title ++ "|" ++ sr.raw_link)⟩],
        db0.queries ++ [⟨pyLower wq.query, r.lang, db0.next_id⟩],
        db0.next_id + 1⟩ = some R2 := ⟨_, hdbs1⟩
  obtain ⟨hlc, _, _⟩ := mkWikiQuery_inv h1
  obtain ⟨hpp, _⟩ := link_checker_not_link hlc h2
  have hmk2 : mkWikiQuery tok query lang wq.search_params = .ok wq := by
    rw [hpp]
    exact h1
  have hrun2 : wiki_searcher_search tok true web true true query lang
      wq.search_params
      ⟨db0.pages ++ [⟨db0.next_id, r.key, r.title, r.lang, r.summary,
          (x :: xs).map (fun sr => sr.title ++ "|" ++ sr.raw_link)⟩],
        db0.queries ++ [⟨pyLower wq.query, r.lang, db0.next_id⟩],
        db0.next_id + 1⟩ =
      .ok ⟨.ok (some R2), true, false,
        ⟨db0.pages ++ [⟨db0.next_id, r.key, r.title, r.lang, r.summary,
            (x :: xs).map (fun sr => sr.title ++ "|" ++ sr.raw_link)⟩],
          db0.queries ++ [⟨pyLower wq.query, r.lang, db0.next_id⟩],
          db0.next_id + 1⟩, wq.search_params⟩ := by
    unfold wiki_searcher_search
    rw [hmk2]
    dsimp only
    rw [show (if (true && (wq.search_params.db_search == WPDBSearch.yes)) = true
        then db_searcher_search wq
          ⟨db0.pages ++ [⟨db0.next_id, r.key, r.title, r.lang, r.summary,
              (x :: xs).map (fun sr => sr.title ++ "|" ++ sr.raw_link)⟩],
            db0.queries ++ [⟨pyLower wq.query, r.lang, db0.next_id⟩],
            db0.next_id + 1⟩ else none) = some R2 from by
      rw [if_pos (by simp [h3])]
      exact hdbs1]
    simp [h3]
  exact ⟨_, hrun1, rfl, _, hrun2, rfl, rfl, R2, rfl⟩

/-- C6 witness: the amended statement at the all-lowercase query
`"entropy"` against an empty store: the second search is served from the
cache without calling the web searcher. -/
theorem c6_writeback_roundtrip_witness :
    ∃ out1, wiki_searcher_search split_words true
        (fun _ => some (mkWikiResult "Entropy" "Entropy" "en" "long summary"
          (some [mkWikiSimpleResult "Other" "Other_key" "en"])))
        true true "entropy" "en"
        ⟨WPSearchModes.default, WPSearchPriority.title, 1,
         WPQueryTreatments.with_treatment, WPDBSearch.yes, WPDBSearchByURL.yes⟩
        ⟨[], [], 0⟩ = .ok out1 ∧
      out1.res = .ok (some (mkWikiResult "Entropy" "Entropy" "en" "long summary"
        (some [mkWikiSimpleResult "Other" "Other_key" "en"]))) ∧
      ∃ out2, wiki_searcher_search split_words true
          (fun _ => some (mkWikiResult "Entropy" "Entropy" "en" "long summary"
            (some [mkWikiSimpleResult "Other" "Other_key" "en"])))
          true true "entropy" "en" out1.params out1.db = .ok out2 ∧
        out2.web_called = false ∧ out2.db_queried = true ∧
        ∃ r2, out2.res = .ok (some r2) :=
  c6_writeback_roundtrip split_words
    (fun _ => some (mkWikiResult "Entropy" "Entropy" "en" "long summary"
      (some [mkWikiSimpleResult "Other" "Other_key" "en"])))
    "entropy" "en"
    ⟨WPSearchModes.default, WPSearchPriority.title, 1,
     WPQueryTreatments.with_treatment, WPDBSearch.yes, WPDBSearchByURL.yes⟩
    ⟨[], [], 0⟩
    ⟨"entropy", "en",
     ⟨WPSearchModes.default, WPSearchPriority.title, 1,
      WPQueryTreatments.with_treatment, WPDBSearch.yes, WPDBSearchByURL.yes⟩,
     some false, "entropy"⟩
    (mkWikiResult "Entropy" "Entropy" "en" "long summary"
      (some [mkWikiSimpleResult "Other" "Other_key" "en"]))
    (mkWikiSimpleResult "Other" "Other_key" "en") []
    (by decide) (by decide) (by decide) (by decide) (by decide) (by decide)
    (by decide) (by decide) (by decide) (by decide) (by decide)

end AsyncWiki
